import Mathlib

/-!
Verification of the d2l-pytorch-sagemaker notebook corpus.

The repository consists of three notebooks. The only code it defines
itself (as opposed to calling) is:

* `CenteredLayer.forward` and the class `MyLinear` with its `forward`,
  in chapter_deep-learning-computation/custom-layer.ipynb;
* `load_array` and a training loop over epochs and minibatches, in the
  linear-regression notebook;
* initializer callbacks (`init_normal`, `xavier`, `init_42`, `my_init`),
  a tied-parameter cell and in-place parameter mutation cells, in
  chapter_deep-learning-computation/parameters.ipynb.

Tensors are embedded as lists of exact rationals; the torch primitives
the code calls (mean, broadcast subtraction, matmul, elementwise add)
are given their mathematical semantics over that embedding. Stateful
cells (parameter stores, in-place writes, tied modules) are embedded as
explicit state passing over a parameter store.
-/

namespace D2L

/-! ### Library primitives (model of the torch operations the code calls) -/

/-- Tensor.mean over all elements: sum divided by element count
(division by zero, for the empty tensor, yields 0 in `ℚ`). -/
def listMean (xs : List ℚ) : ℚ := xs.sum / xs.length

/-- Broadcast subtraction of a scalar from a tensor, the semantics of the
torch expression `x - s` with scalar `s`. -/
def broadcastSub (xs : List ℚ) (s : ℚ) : List ℚ := xs.map (fun v => v - s)

/-- Elementwise addition of two vectors, the semantics of torch `+` on
same-shaped tensors. -/
def vecAdd (a b : List ℚ) : List ℚ := List.zipWith (fun u v => u + v) a b

/-- Dot product of two vectors. -/
def dot (a b : List ℚ) : ℚ := (List.zipWith (fun u v => u * v) a b).sum

/-- torch.matmul of a row vector `x` (length `in_units`) with a matrix `w`
(`in_units` rows of length `units`): entry `j` is the dot product of `x`
with column `j` of `w`. -/
def matVecRight (x : List ℚ) (w : List (List ℚ)) : List ℚ :=
  w.transpose.map (fun col => dot x col)

/-! ### CenteredLayer (custom-layer.ipynb)

Source:
```python
class CenteredLayer(nn.Module):
    def __init__(self):
        super().__init__()
    def forward(self, x):
        return x - x.mean()
```
-/

namespace CenteredLayer

/-- Source `CenteredLayer.forward(x)` returns `x - x.mean()`: each element of the
input has the mean of all input elements subtracted from it. -/
def forward (x : List ℚ) : List ℚ := x.map (fun v => v - listMean x)

end CenteredLayer

/-! ### MyLinear (custom-layer.ipynb)

Source:
```python
class MyLinear(nn.Module):
    def __init__(self, in_units, units):
        super().__init__()
        self.weight = nn.Parameter(torch.randn(in_units, units))
        self.bias = nn.Parameter(torch.randn(units,))
    def forward(self, x):
        return torch.matmul(x, self.weight.data) + self.bias.data
```
The random draws of `torch.randn` are supplied as oracles `gw`, `gb`.
-/

structure MyLinear where
  weight : List (List ℚ)
  bias : List ℚ
deriving DecidableEq

/-- Source `MyLinear.__init__(in_units, units)`: the weight parameter is an
`in_units × units` matrix of draws and the bias a vector of `units`
draws, both fixed at construction. -/
def MyLinear.init (in_units units : Nat) (gw : Nat → Nat → ℚ) (gb : Nat → ℚ) :
    MyLinear :=
  { weight := (List.range in_units).map (fun i => (List.range units).map (fun j => gw i j))
    bias := (List.range units).map (fun j => gb j) }

/-- Source `MyLinear.forward(x)` returns `torch.matmul(x, self.weight.data) +
self.bias.data`. -/
def MyLinear.forward (m : MyLinear) (x : List ℚ) : List ℚ :=
  List.zipWith (fun u v => u + v)
    (m.weight.transpose.map (fun col => (List.zipWith (fun u v => u * v) x col).sum))
    m.bias

/-! ### Spec-side definitions for the refinement claim C1

The spec says every repo-defined forward is "fully delegated to the
external framework": its behaviour is a straight composition of library
primitives with no computation original to the repository. -/

/-- Spec-side reading of CenteredLayer.forward: a thin pipeline of the two
library calls mean and broadcast-subtract applied to the input. -/
def specDelegatedCentered (x : List ℚ) : List ℚ := broadcastSub x (listMean x)

/-- Spec-side reading of MyLinear.forward: a thin pipeline of the two
library calls matmul and elementwise add applied to the input and the
layer's stored parameters. -/
def specDelegatedMyLinear (m : MyLinear) (x : List ℚ) : List ℚ :=
  vecAdd (matVecRight x m.weight) m.bias

/-! ### Helper lemmas -/

/-- Sum of a tensor after broadcast-subtracting a constant. -/
lemma sum_map_sub_const (x : List ℚ) (c : ℚ) :
    (x.map (fun v => v - c)).sum = x.sum - x.length * c := by
  induction x with
  | nil => simp
  | cons a t ih =>
      simp only [List.map_cons, List.sum_cons, ih, List.length_cons]
      push_cast
      ring

/-- The centered layer's output always has mean zero (over exact
arithmetic; for the empty tensor both sides are the junk value 0). -/
lemma listMean_centered (x : List ℚ) : listMean (CenteredLayer.forward x) = 0 := by
  rcases eq_or_ne x [] with h | h
  · subst h
    simp [CenteredLayer.forward, listMean]
  · have hl : (x.length : ℚ) ≠ 0 := by
      exact_mod_cast Nat.pos_iff_ne_zero.mp (List.length_pos.mpr h)
    unfold listMean CenteredLayer.forward
    rw [List.length_map, sum_map_sub_const]
    unfold listMean
    rw [mul_div_cancel₀ _ hl]
    simp

/-- A tensor whose mean is zero is a fixed point of the centered layer. -/
lemma centered_of_mean_zero (y : List ℚ) (h : listMean y = 0) :
    CenteredLayer.forward y = y := by
  simp [CenteredLayer.forward, h]

/-- The centered layer is idempotent over exact arithmetic. -/
lemma centered_idem (x : List ℚ) :
    CenteredLayer.forward (CenteredLayer.forward x) = CenteredLayer.forward x :=
  centered_of_mean_zero _ (listMean_centered x)

/-- Concrete evaluation of the notebook's own test cell:
`layer(torch.FloatTensor([1, 2, 3, 4, 5]))` prints `[-2, -1, 0, 1, 2]`. -/
lemma centered_forward_example :
    CenteredLayer.forward [1, 2, 3, 4, 5] = [-2, -1, 0, 1, 2] := by
  norm_num [CenteredLayer.forward, listMean]

/-- On the notebook's test input the centered layer is not the identity. -/
lemma centered_forward_example_ne :
    CenteredLayer.forward [1, 2, 3, 4, 5] ≠ [1, 2, 3, 4, 5] := by
  rw [centered_forward_example]
  intro h
  have := List.head_eq_of_cons_eq h
  norm_num at this

/-! ### Claims C1 to C3 -/

/-- C1: every function or layer class the repository defines — in
particular CenteredLayer.forward and MyLinear.forward — is a thin call
into the external tensor library: its behaviour coincides with a plain
composition of the library primitives (mean and broadcast subtraction,
respectively matmul and elementwise addition), with no original
computation performed by code of this repository. -/
theorem C1_thin_delegation :
    (∀ x : List ℚ, CenteredLayer.forward x = specDelegatedCentered x) ∧
    (∀ (m : MyLinear) (x : List ℚ), MyLinear.forward m x = specDelegatedMyLinear m x) :=
  ⟨fun _ => rfl, fun _ _ => rfl⟩

/-- C2 counterexample: the repository-defined CenteredLayer.forward does
satisfy non-trivial algebraic laws of its own. At the notebook's own test
input [1, 2, 3, 4, 5] it produces [-2, -1, 0, 1, 2], an output of mean
zero, it is a non-identity map there, and applying it twice equals
applying it once — exactly the zero-mean postcondition and idempotence
the claim says no repository function satisfies. -/
theorem C2_counterexample :
    CenteredLayer.forward [1, 2, 3, 4, 5] = [-2, -1, 0, 1, 2] ∧
    listMean (CenteredLayer.forward [1, 2, 3, 4, 5]) = 0 ∧
    CenteredLayer.forward (CenteredLayer.forward [1, 2, 3, 4, 5]) =
      CenteredLayer.forward [1, 2, 3, 4, 5] ∧
    CenteredLayer.forward [1, 2, 3, 4, 5] ≠ [1, 2, 3, 4, 5] :=
  ⟨centered_forward_example, listMean_centered _, centered_idem _,
    centered_forward_example_ne⟩

/-- C2 (amended): the repository does define a function with non-trivial
algebraic laws of its own: CenteredLayer.forward satisfies a zero-mean
postcondition and is idempotent over exact arithmetic, and it is not the
identity map. -/
theorem C2_amended_laws :
    (∀ x : List ℚ, listMean (CenteredLayer.forward x) = 0) ∧
    (∀ x : List ℚ,
      CenteredLayer.forward (CenteredLayer.forward x) = CenteredLayer.forward x) ∧
    CenteredLayer.forward [1, 2, 3, 4, 5] ≠ [1, 2, 3, 4, 5] :=
  ⟨listMean_centered, centered_idem, centered_forward_example_ne⟩

/-- C3: for every input tensor x over exact arithmetic, the output of
CenteredLayer.forward has mean zero, and consequently forward is
idempotent: forward (forward x) = forward x. -/
theorem C3_zero_mean_idempotent (x : List ℚ) :
    listMean (CenteredLayer.forward x) = 0 ∧
    CenteredLayer.forward (CenteredLayer.forward x) = CenteredLayer.forward x :=
  ⟨listMean_centered x, centered_idem x⟩

/-! ### The training loop cell (linear-regression notebook)

Source:
```python
num_epochs = 3
for epoch in range(1, num_epochs + 1):
    for X, y in data_iter:
        l = loss(net(X) ,y)
        trainer.zero_grad()
        l.backward()
        trainer.step()
    l = loss(net(features), labels)
    print(...)
```
The control structure is embedded as the sequence of framework phases the
cell executes. -/

/-- Phases of the training cell: the per-minibatch forward-loss
evaluation, gradient reset, backward pass and optimizer step, plus the
end-of-epoch full-dataset loss evaluation that gets printed. -/
inductive Phase
  | forwardLoss
  | zeroGrad
  | backward
  | stepOpt
  | epochLoss
deriving DecidableEq

/-- Body of the inner minibatch loop: `l = loss(net(X), y)`,
`trainer.zero_grad()`, `l.backward()`, `trainer.step()`, in that order. -/
def batchBody : List Phase :=
  [Phase.forwardLoss, Phase.zeroGrad, Phase.backward, Phase.stepOpt]

/-- Value assigned by the cell's first line, `num_epochs = 3`. -/
def num_epochs : Nat := 3

/-- One pass of the outer loop body: the inner loop over the loader's
minibatches followed by the epoch-end loss evaluation and print. -/
def epochPhases (numBatches : Nat) : List Phase :=
  (List.replicate numBatches batchBody).flatten ++ [Phase.epochLoss]

/-- The whole training cell: the outer loop repeats the epoch body
`num_epochs` times. -/
def trainingCellPhases (numEpochs numBatches : Nat) : List Phase :=
  (List.replicate numEpochs (epochPhases numBatches)).flatten

/-- Counting occurrences of a phase in the concatenation of `n` copies of
a phase list. -/
lemma count_flatten_replicate (n : Nat) (l : List Phase) (p : Phase) :
    ((List.replicate n l).flatten.count p) = n * l.count p := by
  induction n with
  | zero => simp
  | succ k ih =>
      rw [List.replicate_succ, List.flatten_cons, List.count_append, ih,
        Nat.succ_mul]
      ring

/-- C4 counterexample: the training cell of the linear-regression
notebook, run as written with `num_epochs = 3` over a loader with 2
minibatches, executes the optimizer-step phase 6 times — more than one
API call — because it is a loop over epochs and minibatches performing
forward, backward and optimizer-step phases. -/
theorem C4_counterexample :
    (trainingCellPhases num_epochs 2).count Phase.stepOpt = 6 ∧
    1 < (trainingCellPhases num_epochs 2).count Phase.stepOpt := by
  constructor <;> decide

/-- C4 (amended): every cell of the corpus is a short, straight-line
demonstration except the training cell of the linear-regression
notebook, which does implement an iterative procedure: a loop over
epochs and minibatches whose body performs the forward-loss, zero-grad,
backward and optimizer-step phases in order, executing exactly
numEpochs * numBatches optimizer steps. -/
theorem C4_amended_loop (numEpochs numBatches : Nat) :
    (trainingCellPhases numEpochs numBatches).count Phase.stepOpt =
      numEpochs * numBatches ∧
    batchBody = [Phase.forwardLoss, Phase.zeroGrad, Phase.backward, Phase.stepOpt] := by
  refine ⟨?_, rfl⟩
  unfold trainingCellPhases epochPhases
  rw [count_flatten_replicate, List.count_append, count_flatten_replicate]
  have h1 : batchBody.count Phase.stepOpt = 1 := by decide
  have h2 : ([Phase.epochLoss].count Phase.stepOpt) = 0 := by decide
  rw [h1, h2]
  ring

/-! ### Claims C5: MyLinear as a stateful entity with construction-fixed shapes -/

/-- C5 counterexample: the notebook's `dense = MyLinear(5, 3)` (the random
draws instantiated with a concrete oracle) is a stateful entity defined
by this repository: a layer owning a weight parameter of 5 rows of
length 3 and a bias parameter of length 3, shapes fixed by the
constructor arguments — exactly the kind of entity the claim says no
class defined here introduces. -/
theorem C5_counterexample :
    (MyLinear.init 5 3 (fun i j => (i : ℚ) + j) (fun j => (j : ℚ))).weight.length = 5 ∧
    (MyLinear.init 5 3 (fun i j => (i : ℚ) + j) (fun j => (j : ℚ))).weight.map
      List.length = [3, 3, 3, 3, 3] ∧
    (MyLinear.init 5 3 (fun i j => (i : ℚ) + j) (fun j => (j : ℚ))).bias.length = 3 :=
  ⟨rfl, rfl, rfl⟩

/-- C5 (amended): the repository does define its own layer classes,
CenteredLayer and MyLinear; MyLinear owns weight and bias parameters
whose shapes — an in_units-by-units weight matrix and a bias vector of
length units — are fixed at construction, for every choice of dimensions
and of the random draws. -/
theorem C5_amended_shapes (in_units units : Nat) (gw : Nat → Nat → ℚ)
    (gb : Nat → ℚ) :
    (MyLinear.init in_units units gw gb).weight.length = in_units ∧
    (MyLinear.init in_units units gw gb).weight.map List.length =
      List.replicate in_units units ∧
    (MyLinear.init in_units units gw gb).bias.length = units := by
  refine ⟨by simp [MyLinear.init], ?_, by simp [MyLinear.init]⟩
  unfold MyLinear.init
  rw [List.map_map]
  have h : (List.length ∘ fun i => (List.range units).map (fun j => gw i j)) =
      fun _ : Nat => units := by
    funext i
    simp
  rw [h, List.map_const', List.length_range]

/-! ### Tied parameters (parameters.ipynb)

Source:
```python
shared = nn.Linear(8, 8)
net = nn.Sequential(nn.Linear(4, 8), nn.ReLU(),
                    shared, nn.ReLU(),
                    shared, nn.ReLU(),
                    nn.Linear(8, 1))
net(x)
print(net[2].weight.data[0] == net[4].weight.data[0])
net[2].weight.data[0, 0] = 100
print(net[2].weight.data[0] == net[4].weight.data[0])
```
Python module objects are embedded as references into a parameter store:
the weight of each Linear lives at a store id, and the same `shared`
object placed at positions 2 and 4 contributes the same id twice.
Construction order gives `shared` id 0, then the Linear(4, 8) id 1 and
the Linear(8, 1) id 2. The forward pass `net(x)` reads but never writes
the store. -/

/-- A matrix of exact rationals (a torch weight tensor). -/
abbrev Mat := List (List ℚ)

/-- A module slot of the tied-parameter Sequential: a reference to a
Linear module's weight in the store, or a parameterless ReLU. -/
inductive PMod
  | linearRef (pid : Nat)
  | reluRef
deriving DecidableEq

/-- The Sequential of the tied-parameter cell; positions 2 and 4 hold the
same `shared` module, hence the same store id 0. -/
def tiedNet : List PMod :=
  [PMod.linearRef 1, PMod.reluRef, PMod.linearRef 0, PMod.reluRef,
   PMod.linearRef 0, PMod.reluRef, PMod.linearRef 2]

/-- Reading `net[pos].weight.data` resolves the module at `pos` to its
store id and reads the store there. -/
def weightOfPos (σ : Nat → Mat) (pos : Nat) : Option Mat :=
  match tiedNet.get? pos with
  | some (PMod.linearRef p) => some (σ p)
  | _ => none

/-- In-place update of entry (i, j) of a matrix, the semantics of
`m[i, j] = v`. -/
def setEntry (m : Mat) (i j : Nat) (v : ℚ) : Mat :=
  m.set i ((m.getD i []).set j v)

/-- The in-place write `net[pos].weight.data[i, j] = v` resolves `pos` to
its store id and updates the stored matrix there; every alias of that id
sees the new value. -/
def writeWeightAt (σ : Nat → Mat) (pos i j : Nat) (v : ℚ) : Nat → Mat :=
  match tiedNet.get? pos with
  | some (PMod.linearRef p) => fun q => if q = p then setEntry (σ q) i j v else σ q
  | _ => σ

/-- C6: in the tied-parameter network, net[2].weight and net[4].weight
denote the same parameter object, so whatever the parameter store holds
— in particular both before and after the cell's in-place write
net[2].weight.data[0, 0] = 100, the only store mutation the cell
performs — the weights read at positions 2 and 4 are equal. -/
theorem C6_tied_weights (σ : Nat → Mat) :
    weightOfPos σ 2 = weightOfPos σ 4 ∧
    weightOfPos (writeWeightAt σ 2 0 0 100) 2 =
      weightOfPos (writeWeightAt σ 2 0 0 100) 4 :=
  ⟨rfl, rfl⟩

/-! ### init_normal and net.apply (parameters.ipynb)

Source:
```python
net = nn.Sequential(nn.Linear(4, 8), nn.ReLU(), nn.Linear(8, 1))
...
def init_normal(m):
    if type(m) == nn.Linear:
        nn.init.normal_(net[0].weight, mean=0, std=0.01)
        nn.init.zeros_(net[0].bias)
net.apply(init_normal)
```
`net.apply` visits the children in order and then the container itself.
`nn.init.normal_` draws fresh values; the draws are supplied by an
oracle `fresh` indexed by how many draws have happened. -/

/-- Parameters of the three-layer net: weight and bias of the Linear at
position 0 and of the Linear at position 2. -/
structure NetParams where
  w0 : Mat
  b0 : List ℚ
  w2 : Mat
  b2 : List ℚ

/-- The modules `net.apply` visits: the two Linear children, the ReLU
child, and the Sequential container itself. -/
inductive Mod
  | linear0
  | relu1
  | linear2
  | seqNet
deriving DecidableEq

/-- The Python check `type(m) == nn.Linear`. -/
def Mod.isLinearType : Mod → Bool
  | Mod.linear0 => true
  | Mod.linear2 => true
  | _ => false

/-- Visit order of `net.apply`: children first, then the container. -/
def applyOrder : List Mod := [Mod.linear0, Mod.relu1, Mod.linear2, Mod.seqNet]

/-- Body of `init_normal`: if the visited module is a Linear, overwrite
net[0]'s weight with a fresh normal draw and zero net[0]'s bias (the
argument `m` is never used on the right-hand sides); the second state
component counts the draws consumed. -/
def init_normal (fresh : Nat → Mat) (st : NetParams × Nat) (m : Mod) :
    NetParams × Nat :=
  if m.isLinearType then
    ({ st.1 with w0 := fresh st.2, b0 := List.replicate 8 0 }, st.2 + 1)
  else st

/-- Source `net.apply(init_normal)`: fold the callback over the visit order. -/
def netApplyInitNormal (fresh : Nat → Mat) (σ : NetParams) : NetParams :=
  (applyOrder.foldl (init_normal fresh) (σ, 0)).1

/-- C7: applying init_normal via net.apply mutates only net[0]'s
parameters: for each of the two Linear modules visited it redraws
net[0]'s weight (so the final weight is the second draw) and zeroes
net[0]'s bias, and the weight and bias of net[2] are left unchanged by
the call, whatever the starting parameters and the random draws. -/
theorem C7_init_normal_frame (fresh : Nat → Mat) (σ : NetParams) :
    (netApplyInitNormal fresh σ).w2 = σ.w2 ∧
    (netApplyInitNormal fresh σ).b2 = σ.b2 ∧
    (netApplyInitNormal fresh σ).w0 = fresh 1 ∧
    (netApplyInitNormal fresh σ).b0 = List.replicate 8 0 :=
  ⟨rfl, rfl, rfl, rfl⟩

/-! ### Cell state dependence (data-manipulation and parameters notebooks)

Source of the in-place mutation cell of parameters.ipynb:
```python
net[0].weight.data[:] += 1
net[0].weight.data[0, 0] = 42
net[0].weight.data[0]
```
The cell is embedded as a function of the weight matrix of net[0] left
behind by the preceding cells (the my_init cell mutated it last),
returning the new matrix together with the cell's printed result. -/

/-- Semantics of `data[:] += 1`: add one to every entry in place. -/
def addOneAll (m : Mat) : Mat := m.map (fun row => row.map (fun v => v + 1))

/-- The whole mutation cell: increment all entries, overwrite entry
(0, 0) with 42, and display row 0 of the result. -/
def mutationCell (w : Mat) : Mat × List ℚ :=
  let w1 := addOneAll w
  let w2 := setEntry w1 0 0 42
  (w2, w2.getD 0 [])

/-- The value the mutation cell prints. -/
def mutationCellResult (w : Mat) : List ℚ := (mutationCell w).2

/-- A state the preceding cells could have left in net[0].weight (the
Linear(4, 8) weight is an 8-by-4 matrix): all zeros. -/
def priorWeightsA : Mat := List.replicate 8 (List.replicate 4 0)

/-- Another reachable preceding state: the same but with entry (0, 1)
equal to 5. -/
def priorWeightsB : Mat :=
  [0, 5, 0, 0] :: List.replicate 7 (List.replicate 4 0)

/-- C9 counterexample: the mutation cell of the parameters notebook does
not yield the same result regardless of the state left by preceding
cells: under preceding weight state priorWeightsA it prints
[42, 1, 1, 1], under priorWeightsB it prints [42, 6, 1, 1]. -/
theorem C9_counterexample :
    mutationCellResult priorWeightsA = [42, 1, 1, 1] ∧
    mutationCellResult priorWeightsB = [42, 6, 1, 1] ∧
    mutationCellResult priorWeightsA ≠ mutationCellResult priorWeightsB := by
  refine ⟨?_, ?_, ?_⟩
  · norm_num [mutationCellResult, mutationCell, addOneAll, setEntry,
      priorWeightsA, List.replicate_succ]
  · norm_num [mutationCellResult, mutationCell, addOneAll, setEntry,
      priorWeightsB, List.replicate_succ]
  · intro h
    rw [show mutationCellResult priorWeightsA = [42, 1, 1, 1] by
        norm_num [mutationCellResult, mutationCell, addOneAll, setEntry,
          priorWeightsA, List.replicate_succ],
      show mutationCellResult priorWeightsB = [42, 6, 1, 1] by
        norm_num [mutationCellResult, mutationCell, addOneAll, setEntry,
          priorWeightsB, List.replicate_succ]] at h
    have h1 := List.head_eq_of_cons_eq (List.tail_eq_of_cons_eq h)
    norm_num at h1

/-- C9 (amended): a code cell's result is a deterministic function of the
interpreter state left behind by preceding cells rather than being
independent of it: the mutation cell's printed row equals row 0 of the
preceding weight state with every entry incremented by one and entry
(0, 0) then overwritten with 42. -/
theorem C9_amended_state_dependence (w : Mat) :
    mutationCellResult w = ((w.getD 0 []).map (fun v => v + 1)).set 0 42 := by
  cases w with
  | nil => rfl
  | cons r t => rfl

/-! ### Fallible library calls, load_array and error propagation

Source of load_array (linear-regression notebook):
```python
def load_array(data_arrays, batch_size, is_train=True):
    """Construct a PyTorch data loader"""
    dataset = data.TensorDataset(*data_arrays)
    return data.DataLoader(dataset, batch_size, shuffle=is_train)
```
The library calls that can raise are embedded as Except-valued
functions: torch.matmul and tensor `+` raise shape-mismatch errors,
TensorDataset raises when its tensors disagree on the first dimension.
The repository's functions contain no try/except and no raise of their
own, so their embeddings merely compose these calls. -/

/-- Exceptions of the external library. -/
inductive LibError
  | shapeMismatch (a b : Nat)
  | sizeMismatch
deriving DecidableEq

/-- torch.matmul of a vector with a matrix; raises the library's
shape-mismatch error when the vector length differs from the row count. -/
def matmulVecE (x : List ℚ) (w : Mat) : Except LibError (List ℚ) :=
  if x.length = w.length then Except.ok (matVecRight x w)
  else Except.error (LibError.shapeMismatch x.length w.length)

/-- Elementwise tensor addition; raises the library's shape-mismatch
error on differing lengths. -/
def vecAddE (a b : List ℚ) : Except LibError (List ℚ) :=
  if a.length = b.length then Except.ok (vecAdd a b)
  else Except.error (LibError.shapeMismatch a.length b.length)

/-- Source `MyLinear.forward` over the fallible library calls: the composition
`torch.matmul(x, self.weight.data) + self.bias.data` with no handling of
its own. -/
def MyLinear.forwardE (m : MyLinear) (x : List ℚ) : Except LibError (List ℚ) :=
  match matmulVecE x m.weight with
  | Except.error e => Except.error e
  | Except.ok p => vecAddE p m.bias

/-- A torch TensorDataset: the tuple of tensors it wraps. -/
structure TensorDataset where
  arrays : List (List ℚ)
deriving DecidableEq

/-- Source `data.TensorDataset(*data_arrays)`: the library asserts that all
tensors agree on the first dimension and raises its own error
otherwise. -/
def tensorDatasetE (arrays : List (List ℚ)) : Except LibError TensorDataset :=
  match arrays with
  | [] => Except.ok ⟨[]⟩
  | a :: rest =>
      if rest.all (fun t => t.length == a.length) then Except.ok ⟨a :: rest⟩
      else Except.error LibError.sizeMismatch

/-- A torch DataLoader as configured by this repository: the dataset, the
batch size, the shuffle flag, and the worker-process count. -/
structure DataLoader where
  dataset : TensorDataset
  batch_size : Nat
  shuffle : Bool
  num_workers : Nat
deriving DecidableEq

/-- Source `load_array(data_arrays, batch_size, is_train)`: construct the
TensorDataset, then the DataLoader with `shuffle=is_train`. The call
passes no `num_workers`, so the loader keeps the library default of 0
worker processes. -/
def load_array (data_arrays : List (List ℚ)) (batch_size : Nat)
    (is_train : Bool) : Except LibError DataLoader :=
  match tensorDatasetE data_arrays with
  | Except.error e => Except.error e
  | Except.ok dataset =>
      Except.ok { dataset := dataset, batch_size := batch_size,
                  shuffle := is_train, num_workers := 0 }

/-- C8: no repository-defined function raises an exception of its own or
catches one: MyLinear.forward either succeeds, or returns exactly the
error raised by one of the library calls it delegates to (matmul, then
elementwise add), and load_array either succeeds or returns exactly the
error raised by the library's TensorDataset constructor. -/
theorem C8_error_propagation :
    (∀ (m : MyLinear) (x : List ℚ),
      (∃ v, MyLinear.forwardE m x = Except.ok v) ∨
      (∃ e, MyLinear.forwardE m x = Except.error e ∧
        (matmulVecE x m.weight = Except.error e ∨
          ∃ p, matmulVecE x m.weight = Except.ok p ∧
            vecAddE p m.bias = Except.error e))) ∧
    (∀ (arrays : List (List ℚ)) (bs : Nat) (tr : Bool),
      (∃ dl, load_array arrays bs tr = Except.ok dl) ∨
      (∃ e, load_array arrays bs tr = Except.error e ∧
        tensorDatasetE arrays = Except.error e)) := by
  constructor
  · intro m x
    unfold MyLinear.forwardE
    cases h1 : matmulVecE x m.weight with
    | error e => exact Or.inr ⟨e, rfl, Or.inl rfl⟩
    | ok p =>
        cases h2 : vecAddE p m.bias with
        | error e => exact Or.inr ⟨e, h2, Or.inr ⟨p, rfl, h2⟩⟩
        | ok v => exact Or.inl ⟨v, h2⟩
  · intro arrays bs tr
    unfold load_array
    cases h : tensorDatasetE arrays with
    | error e => exact Or.inr ⟨e, rfl, rfl⟩
    | ok ds => exact Or.inl ⟨DataLoader.mk ds bs tr 0, rfl⟩

/-- C10: the repository's code performs no concurrency of its own; in
particular every DataLoader that load_array successfully constructs is
configured with zero worker processes, so no worker process is
spawned. -/
theorem C10_no_workers (arrays : List (List ℚ)) (bs : Nat) (tr : Bool)
    (dl : DataLoader) (h : load_array arrays bs tr = Except.ok dl) :
    dl.num_workers = 0 := by
  unfold load_array at h
  cases htd : tensorDatasetE arrays with
  | error e =>
      rw [htd] at h
      exact absurd h (by simp)
  | ok ds =>
      rw [htd] at h
      injection h with h
      rw [← h]

/-- Witness for C10: the loader built by the notebook-style call with two
matching tensors has zero worker processes. -/
theorem C10_no_workers_witness :
    (DataLoader.mk ⟨[[1, 2], [3, 4]]⟩ 10 true 0).num_workers = 0 :=
  C10_no_workers [[1, 2], [3, 4]] 10 true
    (DataLoader.mk ⟨[[1, 2], [3, 4]]⟩ 10 true 0) rfl

end D2L
